import Mathlib

/-!
Shallow embedding of `src/app/main.py` (FastAPI application wiring for the
"Evolution of Todo" backend).

The file embeds, faithfully to the Python source:
  * the JSON values returned by the handlers (`Json`),
  * HTTP requests and responses (`Request`, `Response`),
  * the Python exception taxonomy relevant to this app (`Exc`:
    `SQLAlchemyError` versus every other `Exception`),
  * the two registered exception handlers
    (`database_exception_handler`, `general_exception_handler`),
  * the request-logging middleware `log_requests`,
  * the CORS configuration literal (`cors_config`) and the simple-request
    behaviour of the CORS middleware,
  * the middleware stack exactly as Starlette assembles it for this app:
    `ServerErrorMiddleware` (holding the `Exception`-keyed handler) outermost,
    then the user middlewares in registration order (`log_requests`, then
    `CORSMiddleware`), then `ExceptionMiddleware` (holding the
    `SQLAlchemyError`-keyed handler) around the router,
  * the startup sequencer `startup_event` over an environment recording the
    outcome of each database step, and the rule that the app serves traffic
    only after startup succeeded (`run_server`),
  * the three system endpoints `root`, `health_check`, `ping` and the route
    table (`app_router`), with the mounted tasks router kept abstract.
-/

/-- JSON values, restricted to the shapes this application produces:
string literals and objects with ordered string keys. -/
inductive Json where
  | str (s : String)
  | obj (fields : List (String × Json))

/-- An HTTP request as seen by this layer: method, URL path, and the
`Origin` header when the request is cross-origin. -/
structure Request where
  method : String
  path : String
  origin : Option String
deriving DecidableEq

/-- An HTTP response: status code, JSON body, and headers. -/
structure Response where
  status_code : Nat
  body : Json
  headers : List (String × String)

/-- The Python exceptions relevant to this app's handler registry:
`sqlalchemy e` stands for any `SQLAlchemyError`, `other e` for every other
`Exception`.  Both constructors are `Exception`s in Python; the payload is
the exception's message. -/
inductive Exc where
  | sqlalchemy (msg : String)
  | other (msg : String)
deriving DecidableEq

/-- Python `isinstance(exc, SQLAlchemyError)`. -/
def Exc.isSqlAlchemyError : Exc → Bool
  | .sqlalchemy _ => true
  | .other _ => false

/-- A downstream ASGI application: a request either yields a response or
raises an exception. -/
def Handler : Type := Request → Except Exc Response

/-- `database_exception_handler` (main.py lines 80-91): the
`SQLAlchemyError`-keyed handler.  Ignores request and exception and returns
the fixed 503 payload. -/
def database_exception_handler (_request : Request) (_exc : Exc) : Response :=
  { status_code := 503
    body := Json.obj [("error", Json.obj
      [("code", Json.str "DATABASE_ERROR"),
       ("message", Json.str "A database error occurred. Please try again later.")])]
    headers := [] }

/-- `general_exception_handler` (main.py lines 94-105): the
`Exception`-keyed handler.  Ignores request and exception and returns the
fixed 500 payload. -/
def general_exception_handler (_request : Request) (_exc : Exc) : Response :=
  { status_code := 500
    body := Json.obj [("error", Json.obj
      [("code", Json.str "INTERNAL_SERVER_ERROR"),
       ("message", Json.str "An unexpected error occurred.")])]
    headers := [] }

/-- The CORS configuration literal passed to `app.add_middleware`
(main.py lines 24-36). -/
structure CORSConfig where
  allow_origins : List String
  allow_credentials : Bool
  allow_methods : List String
  allow_headers : List String
deriving DecidableEq

/-- The concrete configuration from main.py lines 26-35, a process constant:
origins, credentials, methods, headers, in that field order. -/
def cors_config : CORSConfig :=
  ⟨["http://localhost:3000",
    "http://127.0.0.1:3000",
    "https://todo-evolution-liart.vercel.app",
    "https://todo-evolution.vercel.app",
    "https://evaluation-todo.vercel.app"],
   true,
   ["GET", "POST", "PUT", "PATCH", "DELETE", "OPTIONS"],
   ["*"]⟩

/-- Starlette's `CORSMiddleware.is_allowed_origin` for this configuration:
the origin list contains no wildcard, so an origin is allowed exactly when
it is a member of the allow-list. -/
def origin_allowed (origin : String) : Bool :=
  cors_config.allow_origins.contains origin

/-- The simple-request behaviour of Starlette's `CORSMiddleware` with
`cors_config`: requests pass through unchanged; a response to a request
bearing an allow-listed `Origin` gains the CORS grant headers, any other
response is returned untouched.  Exceptions propagate. -/
def cors_middleware (app : Handler) : Handler := fun req =>
  match app req with
  | .error e => .error e
  | .ok r =>
    match req.origin with
    | none => .ok r
    | some o =>
      if origin_allowed o then
        .ok ⟨r.status_code, r.body,
          ("access-control-allow-origin", o) ::
          ("access-control-allow-credentials", "true") :: r.headers⟩
      else .ok r

/-- Starlette's `ExceptionMiddleware`, holding the app's non-`Exception`
keyed handlers, here exactly `database_exception_handler` for
`SQLAlchemyError`: it translates a raised `SQLAlchemyError` into that
handler's response and re-raises every other exception. -/
def exception_middleware (app : Handler) : Handler := fun req =>
  match app req with
  | .ok r => .ok r
  | .error e =>
    if e.isSqlAlchemyError then .ok (database_exception_handler req e)
    else .error e

/-- One log line emitted by `log_requests`: the pre-dispatch line carries
method and path, the post-handling line also carries the response status. -/
inductive LogEntry where
  | pre (method : String) (path : String)
  | post (method : String) (path : String) (status_code : Nat)
deriving DecidableEq

/-- `log_requests` (main.py lines 40-46): logs the pre-dispatch line, awaits
`call_next`, and, when `call_next` returns a response, logs the
post-handling line with that response's status and returns the response
unchanged.  When `call_next` raises, the post line on line 45 is never
executed and the exception propagates. -/
def log_requests (call_next : Handler) (request : Request) :
    Except Exc Response × List LogEntry :=
  match call_next request with
  | .ok response =>
    (.ok response,
     [LogEntry.pre request.method request.path,
      LogEntry.post request.method request.path response.status_code])
  | .error e => (.error e, [LogEntry.pre request.method request.path])

/-- Starlette's `ServerErrorMiddleware`, the outermost layer, holding the
`Exception`-keyed `general_exception_handler`: any exception escaping the
inner stack is translated into that handler's response. -/
def server_error_middleware
    (app : Request → Except Exc Response × List LogEntry) (req : Request) :
    Response × List LogEntry :=
  match app req with
  | (.ok r, log) => (r, log)
  | (.error e, log) => (general_exception_handler req e, log)

/-- The full middleware stack Starlette builds for this app
(outermost first): `ServerErrorMiddleware`, `log_requests`,
`CORSMiddleware`, `ExceptionMiddleware`, router. -/
def full_app (router : Handler) (req : Request) : Response × List LogEntry :=
  server_error_middleware
    (log_requests (cors_middleware (exception_middleware router))) req

/-- True exactly when the router raises an exception that no inner handler
translates, i.e. one that is not a `SQLAlchemyError`. -/
def raises_unhandled (router : Handler) (req : Request) : Bool :=
  match router req with
  | .error e => !e.isSqlAlchemyError
  | .ok _ => false

/-- The three database steps performed by `startup_event`, in source
order. -/
inductive StartupStep where
  | getEngine
  | initDb
  | selectOne
deriving DecidableEq

/-- The environment `startup_event` runs against: the outcome of
`get_engine()`, of `init_db()`, and of executing `SELECT 1` on a fresh
connection. -/
structure DbEnv where
  get_engine : Except Exc Unit
  init_db : Except Exc Unit
  select_one : Except Exc Unit

/-- Outcome of `startup_event`: whether it returned or re-raised, the
database steps it attempted in order, and whether the failure branch logged
an error. -/
structure StartupResult where
  result : Except Exc Unit
  steps : List StartupStep
  error_logged : Bool

/-- `startup_event` (main.py lines 49-77): `get_engine()`, then
`init_db()`, then `SELECT 1`, each inside one `try`; the first failing step
short-circuits into the `except` block, which logs the error and
re-raises. -/
def startup_event (env : DbEnv) : StartupResult :=
  match env.get_engine with
  | .error e => ⟨.error e, [StartupStep.getEngine], true⟩
  | .ok _ =>
    match env.init_db with
    | .error e => ⟨.error e, [StartupStep.getEngine, StartupStep.initDb], true⟩
    | .ok _ =>
      match env.select_one with
      | .error e =>
        ⟨.error e,
         [StartupStep.getEngine, StartupStep.initDb, StartupStep.selectOne], true⟩
      | .ok _ =>
        ⟨.ok (),
         [StartupStep.getEngine, StartupStep.initDb, StartupStep.selectOne], false⟩

/-- The process serves a request only if `startup_event` completed without
raising; a startup failure aborts the process and no handler is
reachable. -/
def run_server (env : DbEnv) (router : Handler) (req : Request) :
    Option (Response × List LogEntry) :=
  match (startup_event env).result with
  | .error _ => none
  | .ok _ => some (full_app router req)

/-- `root` (main.py lines 111-120): the fixed service-information object. -/
def root : Json :=
  Json.obj
    [("service", Json.str "Evolution of Todo API"),
     ("version", Json.str "0.1.0"),
     ("status", Json.str "running"),
     ("docs", Json.str "/docs"),
     ("health", Json.str "/health")]

/-- `health_check` (main.py lines 123-126): the fixed health object. -/
def health_check : Json := Json.obj [("status", Json.str "ok")]

/-- `ping` (main.py lines 129-135): the fixed ping object. -/
def ping : Json :=
  Json.obj [("ping", Json.str "pong"), ("cors", Json.str "enabled")]

/-- FastAPI's default body for an unmatched path. -/
def not_found_body : Json := Json.obj [("detail", Json.str "Not Found")]

/-- The application's route table.  `tasks_router` is mounted first
(main.py line 108) and is abstract here (its source is not in the
repository); the three system endpoints follow, each a plain `GET` handler
returning its fixed object with FastAPI's default status 200; anything else
is FastAPI's 404. -/
def app_router (tasks : Request → Option (Except Exc Response)) : Handler :=
  fun req =>
    match tasks req with
    | some res => res
    | none =>
      if req.method == "GET" && req.path == "/" then .ok ⟨200, root, []⟩
      else if req.method == "GET" && req.path == "/health" then
        .ok ⟨200, health_check, []⟩
      else if req.method == "GET" && req.path == "/api/ping" then
        .ok ⟨200, ping, []⟩
      else .ok ⟨404, not_found_body, []⟩

/-- A router whose handling always raises a `SQLAlchemyError`; used to
instantiate the database-error theorems. -/
def sql_fail_router : Handler :=
  fun _ => .error (Exc.sqlalchemy "connection refused")

/-- A router whose handling always raises a generic exception; used to
instantiate the internal-error theorems. -/
def boom_router : Handler := fun _ => .error (Exc.other "boom")

/-- The system router with no task routes mounted; used to instantiate the
endpoint theorems. -/
def bare_router : Handler := app_router (fun _ => none)

/-- A concrete same-origin request used to instantiate theorems. -/
def req_tasks : Request := ⟨"POST", "/api/tasks", none⟩

/-- A concrete `GET /health` request used to instantiate theorems. -/
def req_health : Request := ⟨"GET", "/health", none⟩

/-- A concrete `GET /api/ping` request used to instantiate theorems. -/
def req_ping : Request := ⟨"GET", "/api/ping", none⟩

/-- A concrete `GET /` request used to instantiate theorems. -/
def req_root : Request := ⟨"GET", "/", none⟩

/-- An environment whose `get_engine()` step fails; used to instantiate the
startup theorems. -/
def down_env : DbEnv :=
  ⟨.error (Exc.other "could not connect"), .ok (), .ok ()⟩

/-- An environment in which every database step succeeds. -/
def up_env : DbEnv := ⟨.ok (), .ok (), .ok ()⟩

/-- C10: the logging middleware is a frame: whatever `call_next` produces —
a response (status, body and headers intact) or an exception — is returned
unchanged; its only effect is the log. -/
theorem log_requests_preserves_response (call_next : Handler) (req : Request) :
    (log_requests call_next req).1 = call_next req := by
  unfold log_requests
  cases call_next req <;> rfl

/-- Helper: the CORS middleware never changes the status code or body of a
response coming back from the inner stack; at most it prepends grant
headers. -/
theorem cors_middleware_status_body (app : Handler) (req : Request)
    (r : Response) (h : app req = .ok r) :
    ∃ hs, cors_middleware app req = .ok ⟨r.status_code, r.body, hs⟩ := by
  unfold cors_middleware
  rw [h]
  cases req.origin with
  | none => exact ⟨r.headers, rfl⟩
  | some o =>
    cases ho : origin_allowed o with
    | true => simp [ho]
    | false => exact ⟨r.headers, by simp [ho]⟩

/-- Helper: the CORS middleware propagates exceptions untouched. -/
theorem cors_middleware_error (app : Handler) (req : Request) (e : Exc)
    (h : app req = .error e) : cors_middleware app req = .error e := by
  unfold cors_middleware
  rw [h]

/-- Helper: a raised `SQLAlchemyError` is translated by
`ExceptionMiddleware` into the `database_exception_handler` response. -/
theorem exception_middleware_sql (router : Handler) (req : Request)
    (m : String) (h : router req = .error (Exc.sqlalchemy m)) :
    exception_middleware router req =
      .ok (database_exception_handler req (Exc.sqlalchemy m)) := by
  unfold exception_middleware
  rw [h]
  rfl

/-- Helper: a raised non-`SQLAlchemyError` exception is re-raised by
`ExceptionMiddleware`. -/
theorem exception_middleware_other (router : Handler) (req : Request)
    (m : String) (h : router req = .error (Exc.other m)) :
    exception_middleware router req = .error (Exc.other m) := by
  unfold exception_middleware
  rw [h]
  rfl

/-- Helper: a returned response passes through `ExceptionMiddleware`
unchanged. -/
theorem exception_middleware_ok (router : Handler) (req : Request)
    (r : Response) (h : router req = .ok r) :
    exception_middleware router req = .ok r := by
  unfold exception_middleware
  rw [h]

/-- Helper: when the inner stack returns a response, the full app returns
it (with status and body intact) and logs both the pre and the post
line. -/
theorem full_app_of_ok (router : Handler) (req : Request) (r : Response)
    (h : exception_middleware router req = .ok r) :
    ∃ hs, full_app router req =
      (⟨r.status_code, r.body, hs⟩,
       [LogEntry.pre req.method req.path,
        LogEntry.post req.method req.path r.status_code]) := by
  obtain ⟨hs, hc⟩ := cors_middleware_status_body _ req r h
  refine ⟨hs, ?_⟩
  unfold full_app server_error_middleware log_requests
  rw [hc]

/-- Helper: when an exception escapes the inner stack, the full app answers
with the `general_exception_handler` response and only the pre log line. -/
theorem full_app_of_error (router : Handler) (req : Request) (e : Exc)
    (h : exception_middleware router req = .error e) :
    full_app router req =
      (general_exception_handler req e,
       [LogEntry.pre req.method req.path]) := by
  have hc := cors_middleware_error _ req e h
  unfold full_app server_error_middleware log_requests
  rw [hc]

/-- C1: a request whose handling raises a `SQLAlchemyError` is answered
with exactly HTTP 503 and the `DATABASE_ERROR` envelope, and is never
translated by the 500 handler: the two translators do not overlap, the
specific `SQLAlchemyError` registration wins. -/
theorem sqlalchemy_errors_yield_503 (router : Handler) (req : Request)
    (m : String) (h : router req = .error (Exc.sqlalchemy m)) :
    (full_app router req).1.status_code = 503 ∧
    (full_app router req).1.body = Json.obj [("error", Json.obj
      [("code", Json.str "DATABASE_ERROR"),
       ("message", Json.str "A database error occurred. Please try again later.")])] ∧
    (full_app router req).1.status_code ≠
      (general_exception_handler req (Exc.sqlalchemy m)).status_code := by
  obtain ⟨hs, hfa⟩ :=
    full_app_of_ok router req _ (exception_middleware_sql router req m h)
  rw [hfa]
  refine ⟨rfl, rfl, ?_⟩
  show (503 : Nat) ≠ 500
  decide

/-- Witness for C1 at a concrete failing router and request. -/
theorem sqlalchemy_errors_yield_503_witness :
    (full_app sql_fail_router req_tasks).1.status_code = 503 ∧
    (full_app sql_fail_router req_tasks).1.body = Json.obj [("error", Json.obj
      [("code", Json.str "DATABASE_ERROR"),
       ("message", Json.str "A database error occurred. Please try again later.")])] ∧
    (full_app sql_fail_router req_tasks).1.status_code ≠
      (general_exception_handler req_tasks (Exc.sqlalchemy "connection refused")).status_code :=
  sqlalchemy_errors_yield_503 sql_fail_router req_tasks "connection refused" rfl

/-- C2: a request whose handling raises any unhandled non-`SQLAlchemyError`
exception is answered with exactly HTTP 500 and the
`INTERNAL_SERVER_ERROR` envelope. -/
theorem unhandled_errors_yield_500 (router : Handler) (req : Request)
    (m : String) (h : router req = .error (Exc.other m)) :
    (full_app router req).1 =
      ⟨500, Json.obj [("error", Json.obj
        [("code", Json.str "INTERNAL_SERVER_ERROR"),
         ("message", Json.str "An unexpected error occurred.")])], []⟩ := by
  rw [full_app_of_error router req _ (exception_middleware_other router req m h)]
  rfl

/-- Witness for C2 at a concrete failing router and request. -/
theorem unhandled_errors_yield_500_witness :
    (full_app boom_router req_tasks).1 =
      ⟨500, Json.obj [("error", Json.obj
        [("code", Json.str "INTERNAL_SERVER_ERROR"),
         ("message", Json.str "An unexpected error occurred.")])], []⟩ :=
  unhandled_errors_yield_500 boom_router req_tasks "boom" rfl

/-- C3: `startup_event` runs `get_engine()`, `init_db()`, `SELECT 1` in
exactly that order (its attempted steps are always a stage of that
sequence, and all three exactly when it succeeds); it succeeds iff all
three steps succeed; a failing step logs the error and re-raises, so the
server serves no request; traffic is served only after success. -/
theorem startup_sequencer_contract (env : DbEnv) (router : Handler)
    (req : Request) :
    ((startup_event env).result = .ok () ↔
       env.get_engine = .ok () ∧ env.init_db = .ok () ∧
       env.select_one = .ok ()) ∧
    (∃ t, (startup_event env).steps ++ t =
       [StartupStep.getEngine, StartupStep.initDb, StartupStep.selectOne]) ∧
    ((startup_event env).result = .ok () →
       (startup_event env).steps =
         [StartupStep.getEngine, StartupStep.initDb, StartupStep.selectOne]) ∧
    (∀ e, (startup_event env).result = .error e →
       (startup_event env).error_logged = true ∧
       run_server env router req = none) ∧
    ((startup_event env).result = .ok () →
       run_server env router req = some (full_app router req)) := by
  obtain ⟨ge, idb, so⟩ := env
  cases ge with
  | error e =>
    refine ⟨by simp [startup_event], ⟨[StartupStep.initDb, StartupStep.selectOne], rfl⟩, ?_, ?_, ?_⟩
    · intro hok; simp [startup_event] at hok
    · intro e₀ h₀; exact ⟨rfl, rfl⟩
    · intro hok; simp [startup_event] at hok
  | ok u =>
    cases u
    cases idb with
    | error e =>
      refine ⟨by simp [startup_event], ⟨[StartupStep.selectOne], rfl⟩, ?_, ?_, ?_⟩
      · intro hok; simp [startup_event] at hok
      · intro e₀ h₀; exact ⟨rfl, rfl⟩
      · intro hok; simp [startup_event] at hok
    | ok u =>
      cases u
      cases so with
      | error e =>
        refine ⟨by simp [startup_event], ⟨[], rfl⟩, ?_, ?_, ?_⟩
        · intro hok; simp [startup_event] at hok
        · intro e₀ h₀; exact ⟨rfl, rfl⟩
        · intro hok; simp [startup_event] at hok
      | ok u =>
        cases u
        refine ⟨by simp [startup_event], ⟨[], rfl⟩, fun _ => rfl, ?_, fun _ => rfl⟩
        intro e₀ h₀
        simp [startup_event] at h₀

/-- Witness for C3: with a failing `get_engine()` the failure is logged and
the server answers no request. -/
theorem startup_sequencer_contract_witness :
    (startup_event down_env).error_logged = true ∧
    run_server down_env bare_router req_health = none :=
  (startup_sequencer_contract down_env bare_router req_health).2.2.2.1
    (Exc.other "could not connect") rfl

/-- C4 counterexample: for a handler that raises a plain (non-database)
exception, the final response carries status 500, yet the log holds only
the pre-dispatch line — the post-handling line is never emitted, because
the 500 translation happens in the outermost layer, above the logging
middleware.  This refutes the post-line-on-raise part of the claim. -/
theorem post_log_line_missing_counterexample :
    (full_app boom_router req_tasks).1.status_code = 500 ∧
    (full_app boom_router req_tasks).2 = [LogEntry.pre "POST" "/api/tasks"] :=
  ⟨rfl, rfl⟩

/-- C4 amended: every request logs exactly one pre-dispatch line with its
method and path; when the downstream call returns a response — every
success, and every `SQLAlchemyError` already translated to 503 — exactly
one post-handling line follows, carrying the actual response status; but
when the handler raises any other unhandled exception, no post line is
emitted and only the pre line appears. -/
theorem log_requests_amended (router : Handler) (req : Request) :
    (full_app router req).2 =
      if raises_unhandled router req then
        [LogEntry.pre req.method req.path]
      else
        [LogEntry.pre req.method req.path,
         LogEntry.post req.method req.path
           (full_app router req).1.status_code] := by
  cases hr : router req with
  | ok r =>
    obtain ⟨hs, hfa⟩ :=
      full_app_of_ok router req r (exception_middleware_ok router req r hr)
    rw [hfa]
    simp [raises_unhandled, hr]
  | error e =>
    cases e with
    | sqlalchemy m =>
      obtain ⟨hs, hfa⟩ :=
        full_app_of_ok router req _ (exception_middleware_sql router req m hr)
      rw [hfa]
      simp [raises_unhandled, hr, Exc.isSqlAlchemyError]
    | other m =>
      rw [full_app_of_error router req _
        (exception_middleware_other router req m hr)]
      simp [raises_unhandled, hr, Exc.isSqlAlchemyError]

/-- C5: both error translators are constant functions — any two requests
and any two exceptions of the same tier produce identical status and body,
and that body is a fixed literal carrying nothing derived from the
exception or the request. -/
theorem error_translators_constant :
    (∀ (r₁ r₂ : Request) (e₁ e₂ : Exc),
        database_exception_handler r₁ e₁ = database_exception_handler r₂ e₂ ∧
        general_exception_handler r₁ e₁ = general_exception_handler r₂ e₂) ∧
    (∀ (r : Request) (e : Exc),
        database_exception_handler r e =
          ⟨503, Json.obj [("error", Json.obj
            [("code", Json.str "DATABASE_ERROR"),
             ("message", Json.str "A database error occurred. Please try again later.")])], []⟩ ∧
        general_exception_handler r e =
          ⟨500, Json.obj [("error", Json.obj
            [("code", Json.str "INTERNAL_SERVER_ERROR"),
             ("message", Json.str "An unexpected error occurred.")])], []⟩) :=
  ⟨fun _ _ _ _ => ⟨rfl, rfl⟩, fun _ _ => ⟨rfl, rfl⟩⟩

/-- Helper: on a `GET /health` request not claimed by the tasks router, the
route table returns the fixed health response. -/
theorem app_router_health (tasks : Request → Option (Except Exc Response))
    (req : Request) (hm : req.method = "GET") (hp : req.path = "/health")
    (ht : tasks req = none) :
    app_router tasks req = .ok ⟨200, health_check, []⟩ := by
  obtain ⟨mth, pth, org⟩ := req
  simp only at hm hp
  subst hm; subst hp
  unfold app_router
  rw [ht]
  rfl

/-- Helper: on a `GET /api/ping` request not claimed by the tasks router,
the route table returns the fixed ping response. -/
theorem app_router_ping (tasks : Request → Option (Except Exc Response))
    (req : Request) (hm : req.method = "GET") (hp : req.path = "/api/ping")
    (ht : tasks req = none) :
    app_router tasks req = .ok ⟨200, ping, []⟩ := by
  obtain ⟨mth, pth, org⟩ := req
  simp only at hm hp
  subst hm; subst hp
  unfold app_router
  rw [ht]
  rfl

/-- Helper: on a `GET /` request not claimed by the tasks router, the route
table returns the fixed service-information response. -/
theorem app_router_root (tasks : Request → Option (Except Exc Response))
    (req : Request) (hm : req.method = "GET") (hp : req.path = "/")
    (ht : tasks req = none) :
    app_router tasks req = .ok ⟨200, root, []⟩ := by
  obtain ⟨mth, pth, org⟩ := req
  simp only at hm hp
  subst hm; subst hp
  unfold app_router
  rw [ht]
  rfl

/-- C6: once the service is up, `GET /health` answers 200 with body exactly
the object with field status set to ok; the handler is a pure constant, so
it has no side effects and no failure mode of its own. -/
theorem health_check_always_ok (tasks : Request → Option (Except Exc Response))
    (req : Request) (hm : req.method = "GET") (hp : req.path = "/health")
    (ht : tasks req = none) :
    (full_app (app_router tasks) req).1.status_code = 200 ∧
    (full_app (app_router tasks) req).1.body =
      Json.obj [("status", Json.str "ok")] := by
  obtain ⟨hs, hfa⟩ := full_app_of_ok _ req _
    (exception_middleware_ok _ req _ (app_router_health tasks req hm hp ht))
  rw [hfa]
  exact ⟨rfl, rfl⟩

/-- Witness for C6 at the concrete request `GET /health` with no task
routes mounted. -/
theorem health_check_always_ok_witness :
    (full_app (app_router (fun _ => none)) req_health).1.status_code = 200 ∧
    (full_app (app_router (fun _ => none)) req_health).1.body =
      Json.obj [("status", Json.str "ok")] :=
  health_check_always_ok (fun _ => none) req_health rfl rfl rfl

/-- C7: `GET /api/ping` answers 200 with body exactly the object with ping
set to pong and cors set to enabled, unconditionally — the handler reads no
parameter and checks no credential. -/
theorem ping_always_pong (tasks : Request → Option (Except Exc Response))
    (req : Request) (hm : req.method = "GET") (hp : req.path = "/api/ping")
    (ht : tasks req = none) :
    (full_app (app_router tasks) req).1.status_code = 200 ∧
    (full_app (app_router tasks) req).1.body =
      Json.obj [("ping", Json.str "pong"), ("cors", Json.str "enabled")] := by
  obtain ⟨hs, hfa⟩ := full_app_of_ok _ req _
    (exception_middleware_ok _ req _ (app_router_ping tasks req hm hp ht))
  rw [hfa]
  exact ⟨rfl, rfl⟩

/-- Witness for C7 at the concrete request `GET /api/ping` with no task
routes mounted. -/
theorem ping_always_pong_witness :
    (full_app (app_router (fun _ => none)) req_ping).1.status_code = 200 ∧
    (full_app (app_router (fun _ => none)) req_ping).1.body =
      Json.obj [("ping", Json.str "pong"), ("cors", Json.str "enabled")] :=
  ping_always_pong (fun _ => none) req_ping rfl rfl rfl

/-- C8: `GET /` answers 200 with the fixed object whose fields are exactly
service, version, status, docs and health, holding the literals from
main.py lines 114-120; the handler is a pure constant. -/
theorem root_service_info (tasks : Request → Option (Except Exc Response))
    (req : Request) (hm : req.method = "GET") (hp : req.path = "/")
    (ht : tasks req = none) :
    (full_app (app_router tasks) req).1.status_code = 200 ∧
    (full_app (app_router tasks) req).1.body =
      Json.obj
        [("service", Json.str "Evolution of Todo API"),
         ("version", Json.str "0.1.0"),
         ("status", Json.str "running"),
         ("docs", Json.str "/docs"),
         ("health", Json.str "/health")] := by
  obtain ⟨hs, hfa⟩ := full_app_of_ok _ req _
    (exception_middleware_ok _ req _ (app_router_root tasks req hm hp ht))
  rw [hfa]
  exact ⟨rfl, rfl⟩

/-- Witness for C8 at the concrete request `GET /` with no task routes
mounted. -/
theorem root_service_info_witness :
    (full_app (app_router (fun _ => none)) req_root).1.status_code = 200 ∧
    (full_app (app_router (fun _ => none)) req_root).1.body =
      Json.obj
        [("service", Json.str "Evolution of Todo API"),
         ("version", Json.str "0.1.0"),
         ("status", Json.str "running"),
         ("docs", Json.str "/docs"),
         ("health", Json.str "/health")] :=
  root_service_info (fun _ => none) req_root rfl rfl rfl

/-- C9: the CORS policy is the fixed literal configuration — exactly the
five listed origins, the six listed methods, all headers, credentials on —
and an origin is granted CORS permission exactly when it is one of the
five; a request from any other origin passes through the middleware with
no grant added.  The configuration is a process constant, never mutated. -/
theorem cors_policy_static :
    cors_config.allow_origins =
      ["http://localhost:3000",
       "http://127.0.0.1:3000",
       "https://todo-evolution-liart.vercel.app",
       "https://todo-evolution.vercel.app",
       "https://evaluation-todo.vercel.app"] ∧
    cors_config.allow_origins.length = 5 ∧
    cors_config.allow_methods = ["GET", "POST", "PUT", "PATCH", "DELETE", "OPTIONS"] ∧
    cors_config.allow_headers = ["*"] ∧
    cors_config.allow_credentials = true ∧
    (∀ o : String, origin_allowed o = true ↔
      (o = "http://localhost:3000" ∨
       o = "http://127.0.0.1:3000" ∨
       o = "https://todo-evolution-liart.vercel.app" ∨
       o = "https://todo-evolution.vercel.app" ∨
       o = "https://evaluation-todo.vercel.app")) ∧
    (∀ (app : Handler) (req : Request) (o : String),
      req.origin = some o → origin_allowed o = false →
      cors_middleware app req = app req) := by
  refine ⟨rfl, rfl, rfl, rfl, rfl, ?_, ?_⟩
  · intro o
    simp [origin_allowed, cors_config, List.elem_iff]
  · intro app req o horig hno
    unfold cors_middleware
    rw [horig]
    cases happ : app req with
    | error e => rfl
    | ok r => simp [hno]

/-- Witness for C9: a non-listed origin is not allowed and the middleware
grants it nothing. -/
theorem cors_policy_static_witness :
    cors_middleware bare_router ⟨"GET", "/health", some "https://attacker.example"⟩ =
      bare_router ⟨"GET", "/health", some "https://attacker.example"⟩ :=
  cors_policy_static.2.2.2.2.2.2 bare_router
    ⟨"GET", "/health", some "https://attacker.example"⟩
    "https://attacker.example" rfl rfl
